import Mathlib

/-!
# Verification of the Cardano dApp demo (frontend workflow + Express collector)

Shallow embedding of `src/server/index.js`, which contains two programs:
an Express backend (the Transaction Collector Service) and a React frontend
(wallet connection, balance formatting, and the send-to-self transaction
workflow).  JavaScript `BigInt` values are modelled as `Int`, JS strings as
`String`, and fallible operations (`BigInt(...)` conversion, external wallet
calls, storage operations) as `Option` / `Except`.
-/

namespace CardanoDapp

/-! ## Balance Formatter (`formatLovelaceToAda`, frontend lines 226-234)

The JS function takes an arbitrary value; in the app it receives a string,
but the contract also covers BigInt, null and undefined.  `lovelaceValue || "0"`
replaces any *falsy* input (null, undefined, "", 0n) with the string "0";
the result is then converted with `BigInt(...)`, which for a string trims
whitespace, maps the empty string to 0, parses an optionally signed decimal
numeral, and **throws** on anything else.  A throw is modelled as `none`.
(Radix-prefixed numerals like "0x10" are not modelled; no claim touches them.)
-/

/-- Input type of `formatLovelaceToAda`: the JS values the contract covers. -/
inductive LovelaceInput where
  | istr (s : String)
  | ibig (n : Int)
  | inull
  | iundef
deriving DecidableEq, Repr

/-- JS `lovelaceValue || "0"`: falsy values (null, undefined, `""`, `0n`)
are replaced by the string `"0"`. -/
def lovelaceOrZero : LovelaceInput → LovelaceInput
  | .inull => .istr "0"
  | .iundef => .istr "0"
  | .istr s => if s = "" then .istr "0" else .istr s
  | .ibig n => if n = 0 then .istr "0" else .ibig n

/-- JS `String.prototype.trim()`: strip whitespace from both ends.
(JS also strips some exotic Unicode space characters; no claim involves them.) -/
def jsTrim (s : String) : String :=
  String.mk (((s.toList.dropWhile (·.isWhitespace)).reverse.dropWhile
    (·.isWhitespace)).reverse)

/-- Parse a non-empty all-decimal-digit string. -/
def parseDigits : List Char → Option Nat
  | [] => none
  | cs =>
    if cs.all (·.isDigit) then
      some (cs.foldl (fun acc c => 10 * acc + (c.toNat - '0'.toNat)) 0)
    else none

/-- JS `StringToBigInt`: trim whitespace, empty ↦ 0, optionally signed decimal
numeral ↦ its value, anything else throws (`none`). -/
def stringToBigInt (s : String) : Option Int :=
  let t := jsTrim s
  if t = "" then some 0
  else
    match t.toList with
    | '+' :: rest => (parseDigits rest).map (fun n => (n : Int))
    | '-' :: rest => (parseDigits rest).map (fun n => -(n : Int))
    | l => (parseDigits l).map (fun n => (n : Int))

/-- JS `BigInt(v)` for the values we model (`none` = the conversion throws). -/
def toBigInt : LovelaceInput → Option Int
  | .ibig n => some n
  | .istr s => stringToBigInt s
  | .inull => none
  | .iundef => none

/-- JS `String.prototype.padStart(n, c)` for a single-character pad. -/
def jsPadStart (s : String) (n : Nat) (c : Char) : String :=
  if n ≤ s.length then s
  else String.mk (List.replicate (n - s.length) c) ++ s

/-- Function `formatLovelaceToAda` (frontend lines 226-234).  JS BigInt `/` truncates
toward zero and `%` takes the dividend's sign, i.e. `Int.tdiv` / `Int.tmod`.
Returns `none` exactly when `BigInt(lovelaceValue || "0")` throws. -/
def formatLovelaceToAda (lovelaceValue : LovelaceInput) : Option String :=
  match toBigInt (lovelaceOrZero lovelaceValue) with
  | none => none
  | some lovelaceBigInt =>
    let lovelacePerAda : Int := 1000000
    let adaIntegerPart := Int.tdiv lovelaceBigInt lovelacePerAda
    let adaFractionalPart := Int.tmod lovelaceBigInt lovelacePerAda
    let integerStr := toString adaIntegerPart
    let fractionalStr := jsPadStart (toString adaFractionalPart) 6 '0'
    some (integerStr ++ "." ++ fractionalStr ++ " ADA")

/-- The format the spec prescribes, written from the spec's words:
`floor(m/1e6) + "." + pad6(m mod 1e6)` for a non-negative integer `m`. -/
def specAdaFormat (m : Nat) : String :=
  toString (m / 1000000) ++ "." ++ jsPadStart (toString (m % 1000000)) 6 '0'

/-! ## Transaction Collector Service (backend lines 64-209)

Request bodies are parsed JSON, so a field can hold any JS value; only
`txHash` is type-checked by the handler, so we give it a small JS-value type
and keep `walletAddress` / `network` as optional strings (the `||` defaults
treat a missing field and an empty string alike).  Mongoose timestamps are
modelled by a `Nat` clock value supplied per request; a storage fault
(driver throw / rejected promise) is the `dbOk = false` parameter. -/

/-- A JS value sitting in the `txHash` field of a parsed JSON body. -/
inductive BodyVal where
  | vstr (s : String)
  | vnum (n : Int)
  | vbool (b : Bool)
  | vnull
deriving DecidableEq, Repr

/-- A stored transaction record (`txRecord` plus the timestamp both stores
attach: Mongoose `timestamps: true`, or the in-memory `createdAt`). -/
structure TxRecord where
  txHash : String
  walletAddress : String
  network : String
  createdAt : Nat
deriving DecidableEq, Repr

/-- Shape of `req.body` after `express.json()`: fields may be absent (`none`). -/
structure ReqBody where
  txHash : Option BodyVal
  walletAddress : Option String
  network : Option String
deriving DecidableEq, Repr

/-- Server state: the `mongoConnected` flag, the Mongo collection (insertion
order), and the `inMemoryTxHistory` array (backend lines 64, 106, 116). -/
structure ServerState where
  mongoConnected : Bool
  mongoDocs : List TxRecord
  inMemoryTxHistory : List TxRecord
deriving DecidableEq, Repr

/-- An HTTP JSON response as the handlers build them: the status code and
the fields of the JSON payload that any handler ever sets. -/
structure ApiResponse where
  status : Nat
  ok : Bool
  source : Option String
  item : Option TxRecord
  items : List TxRecord
  message : Option String
deriving DecidableEq, Repr

/-- JS truthiness of the `txHash` body field (`!txHash`);
`none` is a missing field, i.e. `undefined`. -/
def bodyValFalsy : Option BodyVal → Bool
  | none => true
  | some .vnull => true
  | some (.vstr s) => s = ""
  | some (.vnum n) => n = 0
  | some (.vbool b) => !b

/-- JS `typeof txHash !== "string"` (negated). -/
def bodyValIsString : Option BodyVal → Bool
  | some (.vstr _) => true
  | _ => false

/-- The rejection condition of the create handler (backend line 167):
`!txHash || typeof txHash !== "string" || !txHash.trim()`. -/
def txHashInvalid (txHash : Option BodyVal) : Bool :=
  bodyValFalsy txHash || !bodyValIsString txHash ||
    (match txHash with
     | some (.vstr s) => jsTrim s = ""
     | _ => true)

/-- JS `v || d` for an optional string value (empty string is falsy). -/
def jsOrDefault (v : Option String) (d : String) : String :=
  match v with
  | some s => if s = "" then d else s
  | none => d

/-- Mongo `find({}).sort({createdAt: -1})`: the collection in descending
`createdAt` order (tie order among equal timestamps is unspecified by the
store; a stable sort of insertion order is one admissible realisation). -/
def sortByCreatedAtDesc (docs : List TxRecord) : List TxRecord :=
  docs.mergeSort (fun a b => b.createdAt ≤ a.createdAt)

/-- Handler for `GET /api/transactions` (backend lines 135-156).  `dbOk = false` means
the Mongo query throws (only reachable in the Mongo branch); the catch
answers 500.  The in-memory branch is `slice(-20).reverse()`, i.e. the last
20 pushed records, newest first. -/
def getTransactions (st : ServerState) (dbOk : Bool) : ApiResponse :=
  if st.mongoConnected then
    if dbOk then
      { status := 200, ok := true, source := some "mongo",
        item := none, items := (sortByCreatedAtDesc st.mongoDocs).take 20,
        message := none }
    else
      { status := 500, ok := false, source := none, item := none, items := [],
        message := some "Failed to fetch transaction history." }
  else
    { status := 200, ok := true, source := some "memory", item := none,
      items := (st.inMemoryTxHistory.reverse.take 20), message := none }

/-- Handler for `POST /api/transactions` (backend lines 162-209).  Validation runs
before any storage access; `now` is the clock value stamped on the created
record; `dbOk = false` means `Transaction.create` throws (only reachable in
the Mongo branch) and the catch answers 500. -/
def postTransactions (st : ServerState) (body : ReqBody) (now : Nat)
    (dbOk : Bool) : ServerState × ApiResponse :=
  if txHashInvalid body.txHash then
    (st, { status := 400, ok := false, source := none, item := none,
           items := [],
           message := some "txHash is required and must be a non-empty string." })
  else
    let hash := match body.txHash with
      | some (.vstr s) => jsTrim s
      | _ => ""
    let txRecord : TxRecord :=
      { txHash := hash,
        walletAddress := jsOrDefault body.walletAddress "",
        network := jsOrDefault body.network "preprod",
        createdAt := now }
    if st.mongoConnected then
      if dbOk then
        ({ st with mongoDocs := st.mongoDocs ++ [txRecord] },
         { status := 201, ok := true, source := some "mongo",
           item := some txRecord, items := [], message := none })
      else
        (st, { status := 500, ok := false, source := none, item := none,
               items := [], message := some "Failed to save transaction." })
    else
      ({ st with inMemoryTxHistory := st.inMemoryTxHistory ++ [txRecord] },
       { status := 201, ok := true, source := some "memory",
         item := some txRecord, items := [], message := none })

/-- Startup value of `mongoConnected` (backend lines 64-85): it only becomes
true when a URI is configured and the connect promise resolves; a configured
but unreachable store leaves it false. -/
def startupMongoConnected (uriProvided connectOk : Bool) : Bool :=
  uriProvided && connectOk

/-! ## Frontend wallet workflow (frontend lines 236-461)

External collaborators (the Mesh wallet capability, the backend fetch) are
an environment of outcomes: each call either resolves or rejects with a JS
error.  React state setters never throw; the 8-second `setTimeout` promise
always resolves.  `sendToSelf` returns the final component state together
with the trace of values passed to `setTxStatus`, in order. -/

/-- One asset returned by `wallet.getBalance()`. -/
structure Asset where
  unit : String
  quantity : String
deriving DecidableEq, Repr

/-- A JS error as the catch block inspects it:
`err?.info?.message || err?.message || <generic>`. -/
structure JSError where
  infoMessage : Option String
  message : Option String
deriving DecidableEq, Repr

/-- Outcomes of the external calls a single `sendToSelf` run performs. -/
structure WalletEnv where
  getChangeAddress : Except JSError String
  buildTx : Except JSError String
  signTx : Except JSError String
  submitTx : Except JSError String
  getBalance : Except JSError (List Asset)
  notifyPost : Except JSError Unit
deriving Repr

/-- The `txStatus` React state (frontend lines 236-240). -/
structure TxStatusR where
  step : String
  message : String
  txHash : Option String
deriving DecidableEq, Repr

/-- Constant `initialTxStatus` (frontend lines 236-240). -/
def initialTxStatus : TxStatusR :=
  { step := "idle", message := "No transaction started yet.", txHash := none }

/-- The `WalletCard` component state that the workflow touches. -/
structure AppState where
  connected : Bool
  hasWallet : Bool
  balanceLovelace : String
  isLoadingBalance : Bool
  txStatus : TxStatusR
  isTxRunning : Bool
deriving DecidableEq, Repr

/-- A falsy empty string is skipped by `||` (frontend lines 453-455). -/
def truthyStr : Option String → Option String
  | none => none
  | some s => if s = "" then none else some s

/-- The message the catch block displays:
`err?.info?.message || err?.message || "Transaction failed. ..."`. -/
def errDisplayMessage (e : JSError) : String :=
  match truthyStr e.infoMessage with
  | some m => m
  | none =>
    match truthyStr e.message with
    | some m => m
    | none => "Transaction failed. Please check your wallet and try again."

/-- Function `getBalance` (frontend lines 366-382): guarded on connection, sets the
loading flag, and resolves the lovelace entry; both the fetch rejection and
a missing "lovelace" unit yield the balance string "0"; the `finally`
clears the loading flag on every path. -/
def getBalanceRun (env : WalletEnv) (s : AppState) : AppState :=
  if !s.connected || !s.hasWallet then s
  else
    let s1 := { s with isLoadingBalance := true }
    match env.getBalance with
    | .ok assets =>
      let lovelaceAsset := assets.find? (fun asset => asset.unit = "lovelace")
      let quantity := match lovelaceAsset with
        | some a => a.quantity
        | none => "0"
      { s1 with balanceLovelace := quantity, isLoadingBalance := false }
    | .error _ =>
      { s1 with balanceLovelace := "0", isLoadingBalance := false }

/-- The `setTxStatus` value entering the building step (lines 389-393). -/
def stBuilding : TxStatusR :=
  { step := "building",
    message := "Building transaction to send 1 ADA to your own address...",
    txHash := none }

/-- The `setTxStatus` value entering the signing step (lines 401-405). -/
def stSigning : TxStatusR :=
  { step := "signing",
    message := "Please sign the transaction in your wallet...",
    txHash := none }

/-- The `setTxStatus` value entering the submitting step (lines 409-413). -/
def stSubmitting : TxStatusR :=
  { step := "submitting",
    message := "Submitting transaction to the Cardano testnet...",
    txHash := none }

/-- The `setTxStatus` value entering the confirming step (lines 417-422). -/
def stConfirming (txHash : String) : TxStatusR :=
  { step := "confirming",
    message := "Transaction submitted! Waiting briefly before updating balance...",
    txHash := some txHash }

/-- The `setTxStatus` value entering the success step (lines 427-431). -/
def stSuccess (txHash : String) : TxStatusR :=
  { step := "success", message := "Transaction successful!",
    txHash := some txHash }

/-- The `setTxStatus` value the catch block writes (lines 450-457):
the step is "error" and `txHash` is null. -/
def stError (e : JSError) : TxStatusR :=
  { step := "error", message := errDisplayMessage e, txHash := none }

/-- The catch block of `sendToSelf` (lines 448-460): set the error status,
then the `finally` releases `isTxRunning`. -/
def runCatch (e : JSError) (s : AppState) (trace : List TxStatusR) :
    AppState × List TxStatusR :=
  let errSt := stError e
  ({ s with txStatus := errSt, isTxRunning := false }, trace ++ [errSt])

/-- Function `sendToSelf` (frontend lines 384-461).  The guard line 385 makes a
running, disconnected or wallet-less invocation a pure no-op.  After a
successful `submitTx` nothing inside the outer `try` can reject: the
timeout promise resolves, `getBalance` catches internally, and the backend
notification has its own catch, so the run necessarily ends in `success`.
The returned list is the trace of `setTxStatus` values, in order. -/
def sendToSelf (env : WalletEnv) (s : AppState) : AppState × List TxStatusR :=
  if s.isTxRunning || !s.connected || !s.hasWallet then (s, [])
  else
    let s1 := { s with isTxRunning := true, txStatus := stBuilding }
    match env.getChangeAddress with
    | .error e => runCatch e s1 [stBuilding]
    | .ok _changeAddress =>
      match env.buildTx with
      | .error e => runCatch e s1 [stBuilding]
      | .ok _unsignedTx =>
        let s2 := { s1 with txStatus := stSigning }
        match env.signTx with
        | .error e => runCatch e s2 [stBuilding, stSigning]
        | .ok _signedTx =>
          let s3 := { s2 with txStatus := stSubmitting }
          match env.submitTx with
          | .error e => runCatch e s3 [stBuilding, stSigning, stSubmitting]
          | .ok txHash =>
            let s4 := { s3 with txStatus := stConfirming txHash }
            let s5 := getBalanceRun env s4
            let s6 := { s5 with txStatus := stSuccess txHash }
            let s7 := match env.notifyPost with
              | .ok _ => s6
              | .error _apiErr => s6
            ({ s7 with isTxRunning := false },
             [stBuilding, stSigning, stSubmitting, stConfirming txHash,
              stSuccess txHash])

/-- "Once set, never cleared or changed": after the first `some h` in the
list, every later entry is that same `some h`. -/
def SetOnce : List (Option String) → Prop
  | [] => True
  | none :: rest => SetOnce rest
  | some h :: rest => ∀ x ∈ rest, x = some h

/-! ## Concrete test fixtures -/

/-- Fixture: an environment where every external call succeeds. -/
def envAllOk : WalletEnv :=
  { getChangeAddress := .ok "addr_test1xyz"
    buildTx := .ok "unsignedTx"
    signTx := .ok "signedTx"
    submitTx := .ok "deadbeef"
    getBalance := .ok [{ unit := "lovelace", quantity := "5000000" }]
    notifyPost := .ok () }

/-- Fixture: a connected, idle component state. -/
def sIdle : AppState :=
  { connected := true, hasWallet := true, balanceLovelace := "0"
    isLoadingBalance := false, txStatus := initialTxStatus, isTxRunning := false }

/-- Fixture: the component state while a run is already in flight. -/
def sRunning : AppState := { sIdle with isTxRunning := true }

/-- Fixture: an environment whose balance fetch rejects. -/
def envBalErr : WalletEnv :=
  { envAllOk with getBalance := .error { infoMessage := none, message := some "boom" } }

/-- Fixture: server with no Mongo connection and empty history. -/
def stMemEmpty : ServerState :=
  { mongoConnected := false, mongoDocs := [], inMemoryTxHistory := [] }

/-- Fixture: server with a connected Mongo store and empty collection. -/
def stMongoEmpty : ServerState :=
  { mongoConnected := true, mongoDocs := [], inMemoryTxHistory := [] }

/-- Fixture: server with a two-record chronological in-memory history. -/
def stMemTwo : ServerState :=
  { mongoConnected := false, mongoDocs := [],
    inMemoryTxHistory :=
      [{ txHash := "a", walletAddress := "", network := "preprod", createdAt := 1 },
       { txHash := "b", walletAddress := "", network := "preprod", createdAt := 2 }] }

/-- Fixture: a request body whose hash is whitespace only. -/
def bodyWs : ReqBody :=
  { txHash := some (.vstr "  "), walletAddress := none, network := none }

/-- Fixture: a request body with the valid hash "abc123". -/
def bodyAbc : ReqBody :=
  { txHash := some (.vstr "abc123"), walletAddress := none, network := none }

/-! ## Helper lemmas -/

theorem tdiv_ofNat (a b : Nat) :
    Int.tdiv (Int.ofNat a) (Int.ofNat b) = Int.ofNat (a / b) := rfl

theorem tmod_ofNat (a b : Nat) :
    Int.tmod (Int.ofNat a) (Int.ofNat b) = Int.ofNat (a % b) := rfl

theorem toString_int_ofNat (a : Nat) : toString (Int.ofNat a) = toString a := rfl

/-- Any record served by the list endpoint comes from one of the two stores. -/
theorem mem_getTransactions_items (st : ServerState) (dbOk : Bool) (r : TxRecord)
    (hr : r ∈ (getTransactions st dbOk).items) :
    r ∈ st.mongoDocs ∨ r ∈ st.inMemoryTxHistory := by
  unfold getTransactions at hr
  split at hr
  · split at hr
    · simp only at hr
      left
      have h1 : r ∈ sortByCreatedAtDesc st.mongoDocs := List.take_subset _ _ hr
      unfold sortByCreatedAtDesc at h1
      exact List.mem_mergeSort.mp h1
    · simp at hr
  · simp only at hr
    right
    have h1 : r ∈ st.inMemoryTxHistory.reverse := List.take_subset _ _ hr
    exact List.mem_reverse.mp h1

/-- If a record is strictly newer than the whole collection, the Mongo sort
puts it first. -/
theorem sortDesc_head_of_max (docs : List TxRecord) (rec : TxRecord)
    (hfresh : ∀ r ∈ docs, r.createdAt < rec.createdAt) :
    (sortByCreatedAtDesc (docs ++ [rec])).head? = some rec := by
  unfold sortByCreatedAtDesc
  have hmem : rec ∈ (docs ++ [rec]).mergeSort
      (fun a b => b.createdAt ≤ a.createdAt) := by
    rw [List.mem_mergeSort]; simp
  have hsorted : ((docs ++ [rec]).mergeSort
      (fun a b => b.createdAt ≤ a.createdAt)).Pairwise
      (fun a b => (decide (b.createdAt ≤ a.createdAt)) = true) :=
    List.sorted_mergeSort
      (fun a b c hab hbc => by
        simp only [decide_eq_true_eq] at *; omega)
      (fun a b => by
        simp only [Bool.or_eq_true, decide_eq_true_eq]
        omega)
      (docs ++ [rec])
  cases hl : (docs ++ [rec]).mergeSort (fun a b => b.createdAt ≤ a.createdAt) with
  | nil => rw [hl] at hmem; cases hmem
  | cons h0 tl =>
    rw [hl] at hmem hsorted
    rcases List.pairwise_cons.mp hsorted with ⟨hle, _⟩
    have h0mem : h0 ∈ docs ++ [rec] := by
      have : h0 ∈ (docs ++ [rec]).mergeSort (fun a b => b.createdAt ≤ a.createdAt) := by
        rw [hl]; exact List.mem_cons_self _ _
      exact List.mem_mergeSort.mp this
    by_cases heq : h0 = rec
    · simp [heq]
    · exfalso
      have hrec_tl : rec ∈ tl := by
        rcases List.mem_cons.mp hmem with h | h
        · exact absurd h.symm heq
        · exact h
      have h1 : rec.createdAt ≤ h0.createdAt := by
        have := hle rec hrec_tl
        simpa using this
      rcases List.mem_append.mp h0mem with h | h
      · exact absurd h1 (Nat.not_le.mpr (hfresh h0 h))
      · simp at h; exact heq h

/-- A create either leaves the in-memory history unchanged or appends one
record stamped with the request clock. -/
theorem post_inMemory_effect (st : ServerState) (body : ReqBody) (now : Nat)
    (dbOk : Bool) :
    (postTransactions st body now dbOk).1.inMemoryTxHistory = st.inMemoryTxHistory ∨
    ∃ rec : TxRecord, rec.createdAt = now ∧
      (postTransactions st body now dbOk).1.inMemoryTxHistory =
        st.inMemoryTxHistory ++ [rec] := by
  by_cases hinv2 : txHashInvalid body.txHash = true
  · simp [postTransactions, hinv2]
  · cases hm2 : st.mongoConnected with
    | true => cases dbOk <;> simp [postTransactions, hinv2, hm2]
    | false =>
      right
      refine ⟨{ txHash := match body.txHash with
                  | some (.vstr s) => jsTrim s
                  | _ => ""
                walletAddress := jsOrDefault body.walletAddress ""
                network := jsOrDefault body.network "preprod"
                createdAt := now }, rfl, ?_⟩
      simp [postTransactions, hinv2, hm2]

/-! ## Claims -/

/-- C1, counterexample: the formatter appends " ADA", so the result at
1000000 is "1.000000 ADA", not the bare "1.000000" the claim states. -/
theorem c1_formatter_counterexample :
    formatLovelaceToAda (.ibig 1000000) = some "1.000000 ADA" ∧
    formatLovelaceToAda (.ibig 1000000) ≠ some "1.000000" := by
  constructor
  · decide
  · decide

/-- C1 (amended): for every non-negative integer minor-unit input, whether
given as a BigInt or as a decimal string, the formatter returns exactly
floor(m/1e6) ++ "." ++ pad6(m mod 1e6) followed by the suffix " ADA". -/
theorem c1_formatLovelaceToAda_spec (v : LovelaceInput) (m : Nat)
    (h : toBigInt (lovelaceOrZero v) = some (Int.ofNat m)) :
    formatLovelaceToAda v = some (specAdaFormat m ++ " ADA") := by
  simp only [formatLovelaceToAda, h]
  rw [show (1000000 : Int) = Int.ofNat 1000000 from rfl, tdiv_ofNat, tmod_ofNat,
    toString_int_ofNat, toString_int_ofNat, specAdaFormat]

/-- C1 witness: the string input "1000000" denotes 1000000 and formats to
"1.000000 ADA". -/
theorem c1_formatLovelaceToAda_spec_witness :
    formatLovelaceToAda (.istr "1000000") = some (specAdaFormat 1000000 ++ " ADA") :=
  c1_formatLovelaceToAda_spec (.istr "1000000") 1000000 (by decide)

/-- C9, counterexample: a malformed non-numeric string is not normalized to
zero; the BigInt conversion throws (modelled as `none`). -/
theorem c9_formatter_throws_counterexample :
    formatLovelaceToAda (.istr "abc") = none := by decide

/-- C9 (amended): null, undefined and other falsy inputs normalize to zero
and give the zero-amount string, and every BigInt input is formatted, but a
malformed non-empty string makes the BigInt conversion throw. -/
theorem c9_formatter_totality :
    formatLovelaceToAda .inull = some "0.000000 ADA" ∧
    formatLovelaceToAda .iundef = some "0.000000 ADA" ∧
    formatLovelaceToAda (.istr "") = some "0.000000 ADA" ∧
    (∀ n : Int, (formatLovelaceToAda (.ibig n)).isSome = true) ∧
    formatLovelaceToAda (.istr "abc.") = none := by
  refine ⟨by decide, by decide, by decide, ?_, by decide⟩
  intro n
  by_cases hn : n = 0
  · subst hn; decide
  · simp [formatLovelaceToAda, lovelaceOrZero, toBigInt, hn]

/-- C9 witness: a concrete BigInt input is formatted. -/
theorem c9_formatter_totality_witness :
    (formatLovelaceToAda (.ibig 42)).isSome = true :=
  c9_formatter_totality.2.2.2.1 42

/-- C2: along any run of `sendToSelf`, every status set before submission
succeeds carries a null `txHash`; once `txHash` is set (at the transition
into confirming) every later status carries the same hash; an error status
always carries a null `txHash`. -/
theorem c2_txHash_invariant (env : WalletEnv) (s : AppState) :
    SetOnce ((sendToSelf env s).2.map (fun st => st.txHash)) ∧
    (∀ st ∈ (sendToSelf env s).2,
      (st.step = "building" ∨ st.step = "signing" ∨ st.step = "submitting") →
      st.txHash = none) ∧
    (∀ st ∈ (sendToSelf env s).2, st.step = "error" → st.txHash = none) := by
  obtain ⟨gca, bld, sgn, sub, bal, ntf⟩ := env
  by_cases hg : (s.isTxRunning || !s.connected || !s.hasWallet) = true
  · simp [sendToSelf, hg, SetOnce]
  · cases gca with
    | error e =>
      simp [sendToSelf, hg, runCatch, SetOnce, stBuilding, stError]
    | ok ca =>
      cases bld with
      | error e =>
        simp [sendToSelf, hg, runCatch, SetOnce, stBuilding, stError]
      | ok u =>
        cases sgn with
        | error e =>
          simp [sendToSelf, hg, runCatch, SetOnce, stBuilding, stSigning, stError]
        | ok sg =>
          cases sub with
          | error e =>
            simp [sendToSelf, hg, runCatch, SetOnce, stBuilding, stSigning,
              stSubmitting, stError]
          | ok h =>
            simp [sendToSelf, hg, runCatch, SetOnce, stBuilding, stSigning,
              stSubmitting, stConfirming, stSuccess]

/-- C2 witness: in the all-success run the building status has no hash. -/
theorem c2_txHash_invariant_witness : stBuilding.txHash = none :=
  (c2_txHash_invariant envAllOk sIdle).2.1 stBuilding (by decide) (Or.inl rfl)

/-- C3: a trigger while a run is in flight is a pure no-op (no state change,
no status written), and a run that does start always releases the
`isTxRunning` guard on every exit path. -/
theorem c3_at_most_one_run (env : WalletEnv) (s : AppState) :
    (s.isTxRunning = true → sendToSelf env s = (s, [])) ∧
    (s.isTxRunning = false → s.connected = true → s.hasWallet = true →
      (sendToSelf env s).1.isTxRunning = false) := by
  constructor
  · intro h
    simp [sendToSelf, h]
  · intro h hc hw
    obtain ⟨gca, bld, sgn, sub, bal, ntf⟩ := env
    have hg : (s.isTxRunning || !s.connected || !s.hasWallet) = false := by
      rw [h, hc, hw]; rfl
    cases gca with
    | error e => simp [sendToSelf, hg, runCatch]
    | ok ca =>
      cases bld with
      | error e => simp [sendToSelf, hg, runCatch]
      | ok u =>
        cases sgn with
        | error e => simp [sendToSelf, hg, runCatch]
        | ok sg =>
          cases sub with
          | error e => simp [sendToSelf, hg, runCatch]
          | ok hh =>
            cases ntf with
            | error e2 => simp [sendToSelf, hg, runCatch]
            | ok uu => simp [sendToSelf, hg, runCatch]

/-- C3 witness: a concrete blocked trigger is a no-op and a concrete
completed run leaves the guard released. -/
theorem c3_at_most_one_run_witness :
    sendToSelf envAllOk sRunning = (sRunning, []) ∧
    (sendToSelf envAllOk sIdle).1.isTxRunning = false :=
  ⟨(c3_at_most_one_run envAllOk sRunning).1 rfl,
   (c3_at_most_one_run envAllOk sIdle).2 rfl rfl rfl⟩

/-- C8: when the on-chain steps succeed, a failing persistence notification
changes nothing: the run ends identically to one whose notification
succeeds, in the success state carrying the submitted hash. -/
theorem c8_notification_failure_swallowed (env : WalletEnv) (s : AppState)
    (e : JSError) (addr utx stx h : String)
    (hrun : s.isTxRunning = false) (hc : s.connected = true)
    (hw : s.hasWallet = true)
    (h1 : env.getChangeAddress = .ok addr) (h2 : env.buildTx = .ok utx)
    (h3 : env.signTx = .ok stx) (h4 : env.submitTx = .ok h) :
    sendToSelf { env with notifyPost := .error e } s =
      sendToSelf { env with notifyPost := .ok () } s ∧
    (sendToSelf { env with notifyPost := .error e } s).1.txStatus =
      stSuccess h := by
  have hg : (s.isTxRunning || !s.connected || !s.hasWallet) = false := by
    rw [hrun, hc, hw]; rfl
  constructor
  · simp [sendToSelf, hg, h1, h2, h3, h4, getBalanceRun]
  · simp [sendToSelf, hg, h1, h2, h3, h4]

/-- C8 witness: concrete all-success run with a failing notification. -/
theorem c8_notification_failure_swallowed_witness :
    sendToSelf { envAllOk with notifyPost := .error { infoMessage := none, message := some "net down" } } sIdle =
      sendToSelf { envAllOk with notifyPost := .ok () } sIdle ∧
    (sendToSelf { envAllOk with notifyPost := .error { infoMessage := none, message := some "net down" } } sIdle).1.txStatus =
      stSuccess "deadbeef" :=
  c8_notification_failure_swallowed envAllOk sIdle
    { infoMessage := none, message := some "net down" }
    "addr_test1xyz" "unsignedTx" "signedTx" "deadbeef"
    rfl rfl rfl rfl rfl rfl rfl

/-- C10: when the balance fetch actually runs, no outcome leaves the loading
flag set, and both a rejected fetch and an asset list without a "lovelace"
entry display the balance "0". -/
theorem c10_getBalance_safety (env : WalletEnv) (s : AppState)
    (hc : s.connected = true) (hw : s.hasWallet = true) :
    (getBalanceRun env s).isLoadingBalance = false ∧
    (∀ e, env.getBalance = .error e →
      (getBalanceRun env s).balanceLovelace = "0") ∧
    (∀ assets, env.getBalance = .ok assets →
      assets.find? (fun asset => asset.unit = "lovelace") = none →
      (getBalanceRun env s).balanceLovelace = "0") := by
  have hg : (!s.connected || !s.hasWallet) = false := by rw [hc, hw]; rfl
  refine ⟨?_, ?_, ?_⟩
  · cases hb : env.getBalance with
    | error e => simp [getBalanceRun, hg, hb]
    | ok assets =>
      cases hf : assets.find? (fun asset => asset.unit = "lovelace") with
      | none => simp [getBalanceRun, hg, hb, hf]
      | some a => simp [getBalanceRun, hg, hb, hf]
  · intro e he
    simp [getBalanceRun, hg, he]
  · intro assets ha hf
    simp [getBalanceRun, hg, ha, hf]

/-- C10 witness: a concrete rejected fetch clears the flag and zeroes the
display. -/
theorem c10_getBalance_safety_witness :
    (getBalanceRun envBalErr sIdle).isLoadingBalance = false ∧
    (getBalanceRun envBalErr sIdle).balanceLovelace = "0" :=
  ⟨(c10_getBalance_safety envBalErr sIdle rfl rfl).1,
   (c10_getBalance_safety envBalErr sIdle rfl rfl).2.1
     { infoMessage := none, message := some "boom" } rfl⟩

/-- C4: an invalid `txHash` (missing, non-string, or empty after trimming)
is rejected with a 400 before any storage access — the state is unchanged
and the response does not depend on the storage outcome — and a hash absent
from both stores stays absent from any subsequent list response. -/
theorem c4_validation_rejects (st : ServerState) (body : ReqBody) (now : Nat)
    (dbOk : Bool) (hinv : txHashInvalid body.txHash = true) :
    postTransactions st body now dbOk =
      (st, { status := 400, ok := false, source := none, item := none,
             items := [],
             message := some "txHash is required and must be a non-empty string." }) ∧
    (∀ raw, (∀ r ∈ st.mongoDocs, r.txHash ≠ raw) →
      (∀ r ∈ st.inMemoryTxHistory, r.txHash ≠ raw) →
      ∀ dbOk2 : Bool, ∀ r2 ∈ (getTransactions (postTransactions st body now dbOk).1 dbOk2).items,
        r2.txHash ≠ raw) := by
  have h1 : postTransactions st body now dbOk =
      (st, { status := 400, ok := false, source := none, item := none,
             items := [],
             message := some "txHash is required and must be a non-empty string." }) := by
    simp [postTransactions, hinv]
  refine ⟨h1, ?_⟩
  intro raw hm hmem dbOk2 r2 hr2
  rw [h1] at hr2
  rcases mem_getTransactions_items st dbOk2 r2 hr2 with h | h
  · exact hm r2 h
  · exact hmem r2 h

/-- C4 witness: a whitespace-only hash is rejected with a 400 and the state
is untouched. -/
theorem c4_validation_rejects_witness :
    postTransactions stMemEmpty bodyWs 5 true =
      (stMemEmpty,
       { status := 400, ok := false, source := none, item := none, items := [],
         message := some "txHash is required and must be a non-empty string." }) :=
  (c4_validation_rejects stMemEmpty bodyWs 5 true (by decide)).1

/-- C5: a valid create answers 201 with the trimmed hash as the stored item,
and — when the new record is strictly newer than everything already stored —
that hash heads the next list response, on either backing store. -/
theorem c5_create_then_listed_first (st : ServerState) (body : ReqBody)
    (now : Nat) (s : String)
    (hts : body.txHash = some (.vstr s)) (hne : jsTrim s ≠ "")
    (hfresh : ∀ r ∈ st.mongoDocs, r.createdAt < now) :
    (postTransactions st body now true).2.status = 201 ∧
    (postTransactions st body now true).2.ok = true ∧
    ((postTransactions st body now true).2.item.map (fun r => r.txHash)) =
      some (jsTrim s) ∧
    (((getTransactions (postTransactions st body now true).1 true).items.map
      (fun r => r.txHash)).head?) = some (jsTrim s) := by
  have hsne : s ≠ "" := by
    intro h
    apply hne
    rw [h]
    rfl
  have hv : txHashInvalid (some (BodyVal.vstr s)) = false := by
    simp [txHashInvalid, bodyValFalsy, bodyValIsString, hsne, hne]
  cases hm : st.mongoConnected with
  | false =>
    refine ⟨?_, ?_, ?_, ?_⟩ <;>
      simp [postTransactions, hv, hts, hm, getTransactions, List.head?_map]
  | true =>
    have hhead := sortDesc_head_of_max st.mongoDocs
      { txHash := jsTrim s, walletAddress := jsOrDefault body.walletAddress "",
        network := jsOrDefault body.network "preprod", createdAt := now }
      hfresh
    refine ⟨?_, ?_, ?_, ?_⟩ <;>
      simp [postTransactions, hv, hts, hm, getTransactions, List.head?_map,
        List.head?_take, hhead]

/-- C5 witness: creating "abc123" on the in-memory store lists it first. -/
theorem c5_create_then_listed_first_witness :
    (postTransactions stMemEmpty bodyAbc 7 true).2.status = 201 ∧
    (((getTransactions (postTransactions stMemEmpty bodyAbc 7 true).1 true).items.map
      (fun r => r.txHash)).head?) = some (jsTrim "abc123") := by
  have h := c5_create_then_listed_first stMemEmpty bodyAbc 7 "abc123" rfl
    (by decide) (by simp [stMemEmpty])
  exact ⟨h.1, h.2.2.2⟩

/-- C6: whichever store serves it, the list response holds at most 20
records, in non-increasing creation-time order (for the in-memory store the
history is appended in clock order, which is the stated hypothesis). -/
theorem c6_list_bounded_sorted (st : ServerState) (dbOk : Bool)
    (hmono : st.inMemoryTxHistory.Pairwise (fun a b => a.createdAt ≤ b.createdAt)) :
    ((getTransactions st dbOk).items.length ≤ 20 ∧
    (getTransactions st dbOk).items.Pairwise
      (fun a b => b.createdAt ≤ a.createdAt)) ∧
    (∀ body now2 dbOk2, (∀ r ∈ st.inMemoryTxHistory, r.createdAt ≤ now2) →
      (postTransactions st body now2 dbOk2).1.inMemoryTxHistory.Pairwise
        (fun a b => a.createdAt ≤ b.createdAt)) := by
  refine ⟨?_, ?_⟩
  case refine_2 =>
    intro body now2 dbOk2 hle
    rcases post_inMemory_effect st body now2 dbOk2 with h | ⟨rec, hrec, h⟩
    · rw [h]; exact hmono
    · rw [h, List.pairwise_append]
      refine ⟨hmono, List.pairwise_singleton _ _, ?_⟩
      intro a ha b hb
      simp at hb
      rw [hb, hrec]
      exact hle a ha
  unfold getTransactions
  split
  · split
    · simp only
      constructor
      · exact List.length_take_le 20 _
      · have hsorted : (sortByCreatedAtDesc st.mongoDocs).Pairwise
            (fun a b => (decide (b.createdAt ≤ a.createdAt)) = true) :=
          List.sorted_mergeSort
            (fun a b c hab hbc => by
              simp only [decide_eq_true_eq] at *; omega)
            (fun a b => by
              simp only [Bool.or_eq_true, decide_eq_true_eq]
              omega)
            st.mongoDocs
        have hsorted2 : (sortByCreatedAtDesc st.mongoDocs).Pairwise
            (fun a b => b.createdAt ≤ a.createdAt) := by
          exact hsorted.imp (fun hab => by simpa using hab)
        exact hsorted2.sublist (List.take_sublist _ _)
    · simp
  · simp only
    constructor
    · exact List.length_take_le 20 _
    · have hrev : st.inMemoryTxHistory.reverse.Pairwise
          (fun a b => b.createdAt ≤ a.createdAt) := by
        rw [List.pairwise_reverse]
        exact hmono
      exact hrev.sublist (List.take_sublist _ _)

/-- C6 witness: a two-record chronological history lists within bounds. -/
theorem c6_list_bounded_sorted_witness :
    (getTransactions stMemTwo true).items.length ≤ 20 :=
  (c6_list_bounded_sorted stMemTwo true (by decide)).1.1

/-- C7: a storage fault surfaces as a 500 (distinct from the 400 validation
answer) and leaves the state unchanged, while an unconnected store — e.g. a
configured URI whose startup connect fails — keeps the service available on
the in-memory store for both operations. -/
theorem c7_storage_fault_isolated (st : ServerState) (body : ReqBody)
    (now : Nat) (hv : txHashInvalid body.txHash = false) :
    (st.mongoConnected = true →
      (getTransactions st false).status = 500 ∧
      (getTransactions st false).ok = false ∧
      (postTransactions st body now false).2.status = 500 ∧
      (postTransactions st body now false).2.ok = false ∧
      (postTransactions st body now false).1 = st) ∧
    (st.mongoConnected = false → ∀ dbOk : Bool,
      (getTransactions st dbOk).status = 200 ∧
      (getTransactions st dbOk).source = some "memory" ∧
      (postTransactions st body now dbOk).2.status = 201 ∧
      (postTransactions st body now dbOk).2.source = some "memory") ∧
    startupMongoConnected true false = false := by
  refine ⟨?_, ?_, rfl⟩
  · intro hm
    refine ⟨?_, ?_, ?_, ?_, ?_⟩ <;> simp [getTransactions, postTransactions, hv, hm]
  · intro hm dbOk
    refine ⟨?_, ?_, ?_, ?_⟩ <;> simp [getTransactions, postTransactions, hv, hm]

/-- C7 witness: concrete fault answers 500 on the Mongo store and the
memory store still serves a 200. -/
theorem c7_storage_fault_isolated_witness :
    (getTransactions stMongoEmpty false).status = 500 ∧
    (getTransactions stMemEmpty true).status = 200 :=
  ⟨((c7_storage_fault_isolated stMongoEmpty bodyAbc 0 (by decide)).1 rfl).1,
   ((c7_storage_fault_isolated stMemEmpty bodyAbc 0 (by decide)).2.1 rfl true).1⟩

end CardanoDapp
